import Mathlib

/-!
Shallow embedding of `src/salt/states/tls_ca.py` (salt state module `tls_ca`).

The module manages an OpenSSL certificate authority declaratively.  Its three
functions `_changes`, `present` and `absent` are embedded below as pure Lean
functions.  The external `tls.*` execution-module calls (`tls.ca_exists`,
`tls.get_ca`, `tls.cert_info`, `tls.create_ca`) and `os.remove` are modelled by
an explicit backend state (`BackendPhase` / `World`) plus a trace of `Call`s,
so that frame properties ("no mutating call is performed") are statable.

A central fact of the source is embedded faithfully: the module never imports
`datetime` (its imports are `os`, `re`, `logging`, `salt.utils`,
`salt.utils.locales` and `six`), and it also writes `datetime.strptime` where
only `datetime.datetime.strptime` would exist.  Consequently, at runtime:

  * an empty `expires` reaches `datetime.date.today()` (lines 80 and 164) and
    raises `NameError: name 'datetime' is not defined`;
  * an `expires` matching either regex reaches `datetime.strptime` (lines 82,
    84, 167 and 169) and raises the same `NameError`;
  * only the invalid-format branch (lines 85-87 and 170-173), which touches no
    `datetime` name, runs to completion — so `_changes` never returns a value,
    `present` never consults the backend, and only `absent` (lines 264-294,
    `datetime`-free) is fully live.

The embedding therefore has `normalizeExpires` return either the
invalid-format signal or a `NameError`, and `_changes` / `present` propagate
that; the existence check, subject loop and expiry comparison of lines
89-106 are dead code (their per-field comparison is still embedded as
`fieldChanged`, clearly marked, for reasoning about what the loop as written
would do).

Other Python semantics that matter to the claims:

  * `re.match(pattern + chr(36), s)` with the dollar anchor also matches when a
    single trailing newline follows the matched text; `reIso` and `reCompact`
    model this (`"2030-05-21\n"` matches the first pattern).
  * `expires is ''` (identity) is embedded as string equality, which is what
    CPython's interning of the empty string makes it in practice.
  * subject-field values are `None` or strings; `Option String` plays that
    role, with Python truthiness (`truthy`) and Python `!=` (`pyNe`, where
    `None` differs from every string), and `pyEq` gives Python `==` across
    `date` and `str` (always false) for the dead comparison on line 104.
-/

namespace TlsCa

/-- A calendar date, as a Python `datetime.date` value would carry it.  Only
used as one arm of the Python value universe `PyVal` (the date arithmetic of
the source is dead code: every reference to `datetime` raises `NameError`). -/
structure Date where
  year : Nat
  month : Nat
  day : Nat
deriving DecidableEq, Repr

/-- The decimal digit character of `n % 10`. -/
def digitChar (n : Nat) : Char := Char.ofNat (48 + n % 10)

/-- Two-digit zero-padded decimal rendering, as a character list. -/
def pad2data (n : Nat) : List Char := [digitChar (n / 10), digitChar n]

/-- Four-digit zero-padded decimal rendering, as a character list. -/
def pad4data (n : Nat) : List Char :=
  [digitChar (n / 1000), digitChar (n / 100), digitChar (n / 10), digitChar n]

/-- The string `YYYY-MMDD` (hyphen after the year only) for the numbers
`(y, m, d)`. -/
def mkCompact (y m d : Nat) : String :=
  String.mk (pad4data y ++ '-' :: (pad2data m ++ pad2data d))

/-- The character class `[0-9]`. -/
def isDigit (c : Char) : Bool := 48 ≤ c.toNat && c.toNat ≤ 57

/-- The month alternation `(1[0-2]|0[1-9])` of the source's regexes. -/
def matchMonth (a b : Char) : Bool :=
  (a == '1' && (b == '0' || b == '1' || b == '2')) ||
  (a == '0' && 49 ≤ b.toNat && b.toNat ≤ 57)

/-- The day alternation `(3[01]|0[1-9]|[12][0-9])` of the source's regexes. -/
def matchDay (a b : Char) : Bool :=
  (a == '3' && (b == '0' || b == '1')) ||
  (a == '0' && 49 ≤ b.toNat && b.toNat ≤ 57) ||
  ((a == '1' || a == '2') && isDigit b)

/-- The body of the source's first pattern (lines 81 and 166),
`([0-9]{4})-(1[0-2]|0[1-9])-(3[01]|0[1-9]|[12][0-9])`: a ten-character
`YYYY-MM-DD` shape. -/
def isoShape : List Char → Bool
  | [y1, y2, y3, y4, '-', m1, m2, '-', d1, d2] =>
    isDigit y1 && isDigit y2 && isDigit y3 && isDigit y4 &&
    matchMonth m1 m2 && matchDay d1 d2
  | _ => false

/-- The body of the source's second pattern (lines 83 and 168),
`([0-9]{4})-(1[0-2]|0[1-9])(3[01]|0[1-9]|[12][0-9])`: note the hyphen after
the year group and the absence of a hyphen between the month and day groups,
i.e. a nine-character `YYYY-MMDD` shape. -/
def compactShape : List Char → Bool
  | [y1, y2, y3, y4, '-', m1, m2, d1, d2] =>
    isDigit y1 && isDigit y2 && isDigit y3 && isDigit y4 &&
    matchMonth m1 m2 && matchDay d1 d2
  | _ => false

/-- Whether a character list ends with a newline. -/
def endsNewline (l : List Char) : Bool :=
  match l.getLast? with
  | some c => c == '\n'
  | none => false

/-- Python `re.match` of the source's first pattern: the dollar anchor at the
end of the pattern matches at the end of the string or just before a single
trailing newline, so both `YYYY-MM-DD` and `YYYY-MM-DD` followed by one
newline match. -/
def reIso (s : String) : Bool :=
  isoShape s.data || (endsNewline s.data && isoShape s.data.dropLast)

/-- Python `re.match` of the source's second pattern, with the same
trailing-newline behavior of the dollar anchor: `YYYY-MMDD`, optionally
followed by one newline. -/
def reCompact (s : String) : Bool :=
  compactShape s.data || (endsNewline s.data && compactShape s.data.dropLast)

/-- The message of the `NameError` raised whenever the source references the
never-imported `datetime` module. -/
def nameErrorMsg : String := "name \x27datetime\x27 is not defined"

/-- Result of the expiry-normalization block that both `_changes` (lines
77-87) and `present` (lines 161-173) start with. -/
inductive NormResult where
  /-- The string matched neither pattern (`else` branch, the source's only
  branch that touches no `datetime` name); payload is the offending string. -/
  | err (expires : String)
  /-- Every other branch — the empty-string default (`datetime.date.today()`,
  lines 80/164) and both pattern matches (`datetime.strptime`, lines
  82/84/167/169) — references the never-imported `datetime` module and raises
  `NameError`. -/
  | nameError
deriving DecidableEq, Repr

/-- Lines 77-87 of the source (and identically 161-169): the empty string
takes the default branch, otherwise the two patterns are tried in order; all
three of those branches raise `NameError` at their first `datetime`
reference, and only a string matching neither pattern reaches the `else`
branch alive. -/
def normalizeExpires (expires : String) : NormResult :=
  if expires = "" then .nameError
  else if reIso expires then .nameError
  else if reCompact expires then .nameError
  else .err expires

/-- The fragment of Python's value universe at the comparison on line 104 of
the source (dead code): `datetime.date` objects and strings. -/
inductive PyVal where
  | str (s : String)
  | date (d : Date)
deriving DecidableEq, Repr

/-- Python `==` on that universe: values of different types are never equal
(both `date.__eq__(str)` and `str.__eq__(date)` return `NotImplemented`, and
the fallback is identity).  This is the semantics the comparison on line 104
would have, were it reachable. -/
def pyEq : PyVal → PyVal → Bool
  | .str a, .str b => a == b
  | .date a, .date b => a == b
  | _, _ => false

/-- Python truthiness of a subject-field argument (`None` or a string):
`None` and the empty string are falsy, every other string is truthy. -/
def truthy : Option String → Bool
  | none => false
  | some s => !(s == "")

/-- Python `!=` between a subject-field argument (`None` or a string) and a
string taken from `cainfo['subject']`: `None` differs from every string. -/
def pyNe : Option String → String → Bool
  | none, _ => true
  | some s, v => !(s == v)

/-- The body of the loop on lines 95-103 of the source for one attribute —
dead code, since `_changes` raises during normalization before reaching the
loop, embedded here for reasoning about what the loop as written would do.
`d` is `locals()[attribute]` (the keyword argument), `a` is the attribute's
entry in `cainfo['subject']` (`none` when the key is absent).  The `if`
compares truthiness of the two sides; the `elif` fires when the key is
present and the values differ under Python `!=`. -/
def fieldChanged (d a : Option String) : Bool :=
  if truthy d != (a.isSome && truthy a) then true
  else
    match a with
    | some v => pyNe d v
    | none => false

/-- Parsed subject of a certificate, as `tls.cert_info` would return it in
`cainfo['subject']`: a field is `none` when the certificate's subject lacks
that key, `some v` when the key maps to the string `v`. -/
structure Subject where
  CN : Option String
  C : Option String
  ST : Option String
  L : Option String
  O : Option String
  OU : Option String
  emailAddress : Option String
deriving DecidableEq, Repr

/-- A `tls.cert_info` result: the parsed subject and the `not_after` epoch
timestamp. -/
structure CAInfo where
  subject : Subject
  not_after : Nat
deriving DecidableEq, Repr

/-- Result type of `_changes` as the source declares it: `False` when the CA
does not exist (`.absent`), the change dict otherwise (`.changes`).  No
invocation actually produces such a value: `_changes` always raises during
normalization (see `normalizeExpires`). -/
inductive ChangesResult where
  | absent
  | changes (cs : List (String × Option String))
deriving DecidableEq, Repr

/-- An exception escaping a function: the `ValueError` the source raises
itself on line 86, or the `NameError` from the missing `datetime` import. -/
inductive PyErr where
  | valueError (msg : String)
  | nameError (msg : String)
deriving DecidableEq, Repr

/-- One call to an external collaborator (`tls.*` execution module or
`os.remove`), recorded in order of occurrence. -/
inductive Call where
  | ca_exists (name : String)
  | get_ca (name : String)
  | cert_info (path : String)
  | create_ca (name : String) (bits : Nat) (expires : String)
      (CN C ST L O OU emailAddress : Option String)
      (cacert_path : Option String) (digest : String) (replace : Bool)
  | os_remove (path : String)
deriving DecidableEq, Repr

/-- Whether a call mutates the system (certificate creation/replacement and
file removal do; existence checks, path lookup and inspection do not). -/
def Call.mutating : Call → Bool
  | .create_ca _ _ _ _ _ _ _ _ _ _ _ _ _ => true
  | .os_remove _ => true
  | _ => false

/-- The backend's answers during one pass of inspection: the result of
`tls.ca_exists`, of `tls.get_ca` and of `tls.cert_info`. -/
structure BackendPhase where
  ca_exists : Bool
  get_ca : String
  cert_info : CAInfo
deriving DecidableEq, Repr

/-- The whole environment of one invocation: the backend state before any
mutation (`pre`), the backend state that would be observed after a
`tls.create_ca` call (`post`), the dict `tls.create_ca` would return
(`create_ret`), and the `__opts__['test']` flag.  Only `pre` and `test` are
ever consulted by live code (`absent` and `present`'s invalid-format path);
`post` and `create_ret` model answers to calls the source can no longer
issue. -/
structure World where
  pre : BackendPhase
  post : BackendPhase
  create_ret : List (String × Option String)
  test : Bool
deriving DecidableEq, Repr

/-- Lines 57-106 of the source (`_changes`): normalization runs first and
never succeeds — an `expires` matching neither pattern raises the source's
own `ValueError` (line 86), every other `expires` raises `NameError` at the
first `datetime` reference (lines 80/82/84).  The existence check (line 90),
the subject loop (lines 95-103) and the expiry comparison (line 104) are
unreachable: no backend call is made and no change dict or absent signal is
ever returned.  The first component of the result is the (always empty)
trace of backend calls. -/
def _changes (name : String) (bits : Nat) (expires : String)
    (CN C ST L O OU emailAddress : Option String) (fixmode : Bool)
    (cacert_path : Option String) (digest : String)
    (ph : BackendPhase) :
    List Call × Except PyErr ChangesResult :=
  match normalizeExpires expires with
  | .err e => ([], .error (.valueError ("Failed parsing ISO 8601 date value: " ++ e)))
  | .nameError => ([], .error (.nameError nameErrorMsg))

/-- The dictionary a salt state function returns: `name`, `changes`,
`result` (`True`/`False`/`None`, hence `Option Bool`) and `comment`. -/
structure Ret where
  name : String
  changes : List (String × Option String)
  result : Option Bool
  comment : String
deriving DecidableEq, Repr

/-- Lines 109-261 of the source (`present`): after initializing the return
dict (lines 154-159), normalization runs.  An `expires` matching neither
pattern returns the invalid-expiration failure (lines 170-173) — the only
path of `present` that runs to completion.  Every other `expires` (the empty
default included) raises `NameError` at lines 164/167/169, so the diff
(lines 176-187), the create/replace calls and their outcomes (lines
188-261), and the implicit `return None` fall-through after line 261 are all
unreachable: `present` never consults the backend (the trace is always
empty) and never returns the initialized "exists in the correct state"
comment. -/
def present (name : String) (bits : Nat) (expires : String)
    (CN C ST L O OU emailAddress : Option String) (fixmode : Bool)
    (cacert_path : Option String) (digest : String) (w : World) :
    List Call × Except PyErr Ret :=
  let ret0 : Ret :=
    { name := name, changes := [], result := some true,
      comment := "Root CA for " ++ name ++ " exists in the correct state" }
  match normalizeExpires expires with
  | .err e =>
    ([], .ok { ret0 with
               result := some false,
               comment := "Invalid expiration date: " ++ e })
  | .nameError => ([], .error (.nameError nameErrorMsg))

/-- Python `capath[:-3]`: all but the last three characters. -/
def pySliceDropLast3 (s : String) : String :=
  String.mk (s.data.take (s.data.length - 3))

/-- Lines 264-294 of the source (`absent`) — fully live, it references no
`datetime` name: if the CA exists and the run is not a dry run, `os.remove`
the certificate path and then `os.remove('{0}key'.format(capath[:-3]))`, the
co-located private key. -/
def absent (name : String) (cacert_path : Option String) (w : World) :
    List Call × Ret :=
  let ret0 : Ret := { name := name, changes := [], result := some true, comment := "" }
  if w.pre.ca_exists then
    if w.test then
      ([.ca_exists name],
       { ret0 with
         result := none,
         comment := "CA Certificate \"" ++ name ++ "\" set for removal" })
    else
      let capath := w.pre.get_ca
      let keypath := pySliceDropLast3 capath ++ "key"
      ([.ca_exists name, .get_ca name, .os_remove capath, .os_remove keypath],
       { ret0 with
         changes := [(name, some "removed")],
         comment := "Removed CA Certificate \"" ++ name ++ "\"" ++
                    " Removed CA private key \"" ++ name ++ "\"" })
  else
    ([.ca_exists name],
     { ret0 with comment := "CA Certificate \"" ++ name ++ "\" is not present." })

/-- Whether a trace contains no mutating call. -/
def noMutatingCalls (tr : List Call) : Bool := tr.all (fun c => !c.mutating)

/-- The per-field flag condition as the specification words it (claim C2):
the field is flagged iff (a) the desired value's truthiness differs from the
actual value's truthiness, or (b) both sides are set and their string values
differ. -/
def specFieldFlag (d a : Option String) : Bool :=
  (truthy d != (a.isSome && truthy a)) ||
  (truthy d && (a.isSome && truthy a) && !(d == a))

/-- The per-field flag condition lines 95-103 actually write (dead code), as
a single disjunction: truthiness differs, or the actual subject has the field
(even with an empty value) and the desired value differs from the actual one
under Python `!=` (where `None` differs from every string). -/
def amendedFieldFlag (d a : Option String) : Bool :=
  (truthy d != (a.isSome && truthy a)) ||
  (match a with
   | some v => pyNe d v
   | none => false)

/-- A certificate subject that coincides with the profile
`CN=example.com, C=US, ST=Utah, L=Salt Lake City, O=SaltStack, OU=None,
emailAddress=xyz@pdq.net`. -/
def subjMatch : Subject :=
  { CN := some "example.com", C := some "US", ST := some "Utah",
    L := some "Salt Lake City", O := some "SaltStack", OU := none,
    emailAddress := some "xyz@pdq.net" }

/-- A backend phase in which the CA exists, its subject is `subjMatch` and
its `not_after` timestamp is 1905552000, midnight UTC of 2030-05-21. -/
def phMatch : BackendPhase :=
  { ca_exists := true, get_ca := "/etc/pki/example.com_ca_cert.crt",
    cert_info := { subject := subjMatch, not_after := 1905552000 } }

/-- A world whose CA fully matches the desired profile, outside dry-run
mode, whose backend would report changes applied. -/
def wMatch : World :=
  { pre := phMatch, post := phMatch, create_ret := [("CN", some "example.com")],
    test := false }

/-- A backend phase in which no CA exists. -/
def phNoCA : BackendPhase :=
  { ca_exists := false, get_ca := "",
    cert_info := { subject := subjMatch, not_after := 0 } }

/-- A dry-run world without an existing CA. -/
def wNoCATest : World :=
  { pre := phNoCA, post := phNoCA, create_ret := [], test := true }

/-- A non-dry-run world without an existing CA. -/
def wNoCA : World :=
  { pre := phNoCA, post := phNoCA, create_ret := [], test := false }

/-- A non-dry-run world with a divergent CA (`CN=old.example.com` on disk)
whose backend would report changes applied to a replace call. -/
def wDiverge : World :=
  { pre := { phMatch with
             cert_info := { subject := { subjMatch with CN := some "old.example.com" },
                            not_after := 1905552000 } },
    post := { phMatch with
              cert_info := { subject := { subjMatch with CN := some "old.example.com" },
                             not_after := 1905552000 } },
    create_ret := [("CN", some "example.com")], test := false }

theorem digitChar_toNat (n : Nat) : (digitChar n).toNat = 48 + n % 10 := by
  have h : n % 10 < 10 := Nat.mod_lt _ (by omega)
  simp only [digitChar]
  generalize n % 10 = k at h ⊢
  interval_cases k <;> rfl

theorem isDigit_digitChar (n : Nat) : isDigit (digitChar n) = true := by
  simp only [isDigit, digitChar_toNat, Bool.and_eq_true, decide_eq_true_eq]
  omega

theorem matchMonth_digitChar (m : Nat) (h1 : 1 ≤ m) (h2 : m ≤ 12) :
    matchMonth (digitChar (m / 10)) (digitChar m) = true := by
  interval_cases m <;> rfl

theorem matchDay_digitChar (d : Nat) (h1 : 1 ≤ d) (h2 : d ≤ 31) :
    matchDay (digitChar (d / 10)) (digitChar d) = true := by
  interval_cases d <;> rfl

theorem mkCompact_eq (y m d : Nat) :
    mkCompact y m d = String.mk [digitChar (y / 1000), digitChar (y / 100),
      digitChar (y / 10), digitChar y, '-', digitChar (m / 10), digitChar m,
      digitChar (d / 10), digitChar d] := rfl

theorem compactShape_mk (y1 y2 y3 y4 m1 m2 d1 d2 : Char) :
    compactShape [y1, y2, y3, y4, '-', m1, m2, d1, d2] =
      (isDigit y1 && isDigit y2 && isDigit y3 && isDigit y4 &&
       matchMonth m1 m2 && matchDay d1 d2) := rfl

theorem isoShape_of_length_ne (l : List Char) (h : l.length ≠ 10) :
    isoShape l = false := by
  unfold isoShape
  split
  · simp at h
  · rfl

theorem compactShape_mkCompact (y m d : Nat) (hm1 : 1 ≤ m) (hm2 : m ≤ 12)
    (hd1 : 1 ≤ d) (hd31 : d ≤ 31) :
    compactShape (mkCompact y m d).data = true := by
  rw [mkCompact_eq]
  rw [show (String.mk [digitChar (y / 1000), digitChar (y / 100),
    digitChar (y / 10), digitChar y, '-', digitChar (m / 10), digitChar m,
    digitChar (d / 10), digitChar d]).data = [digitChar (y / 1000),
    digitChar (y / 100), digitChar (y / 10), digitChar y, '-',
    digitChar (m / 10), digitChar m, digitChar (d / 10), digitChar d] from rfl]
  rw [compactShape_mk]
  simp only [isDigit_digitChar, matchMonth_digitChar m hm1 hm2,
    matchDay_digitChar d hd1 hd31, Bool.and_self]

theorem reCompact_mkCompact (y m d : Nat) (hm1 : 1 ≤ m) (hm2 : m ≤ 12)
    (hd1 : 1 ≤ d) (hd31 : d ≤ 31) : reCompact (mkCompact y m d) = true := by
  unfold reCompact
  rw [compactShape_mkCompact y m d hm1 hm2 hd1 hd31]
  rfl

theorem reIso_mkCompact (y m d : Nat) : reIso (mkCompact y m d) = false := by
  unfold reIso
  rw [isoShape_of_length_ne (mkCompact y m d).data (by rw [mkCompact_eq]; simp),
      isoShape_of_length_ne (mkCompact y m d).data.dropLast
        (by rw [mkCompact_eq]; simp)]
  simp

theorem mkCompact_ne_empty (y m d : Nat) : mkCompact y m d ≠ "" := by
  intro h
  have := congrArg String.data h
  rw [mkCompact_eq] at this
  simp at this

theorem normalizeExpires_mkCompact (y m d : Nat) (hm1 : 1 ≤ m) (hm2 : m ≤ 12)
    (hd1 : 1 ≤ d) (hd31 : d ≤ 31) :
    normalizeExpires (mkCompact y m d) = .nameError := by
  unfold normalizeExpires
  rw [if_neg (mkCompact_ne_empty y m d), reIso_mkCompact y m d,
      reCompact_mkCompact y m d hm1 hm2 hd1 hd31]
  rfl

theorem fieldChanged_eq_amended (d a : Option String) :
    fieldChanged d a = amendedFieldFlag d a := by
  cases a with
  | none => simp [fieldChanged, amendedFieldFlag]
  | some v =>
    simp only [fieldChanged, amendedFieldFlag]
    split
    · rename_i h
      simp_all
    · rename_i h
      simp_all

theorem take_length_add {α : Type} (l1 l2 : List α) (i : Nat) :
    (l1 ++ l2).take (l1.length + i) = l1 ++ l2.take i :=
  List.take_append i

theorem pySliceDropLast3_crt (stem : String) :
    pySliceDropLast3 (stem ++ ".crt") ++ "key" = stem ++ ".key" := by
  unfold pySliceDropLast3
  have hd : (stem ++ ".crt").data = stem.data ++ ['.', 'c', 'r', 't'] := rfl
  rw [hd]
  have hl : (stem.data ++ ['.', 'c', 'r', 't']).length - 3 = stem.data.length + 1 := by
    simp
  rw [hl, take_length_add]
  apply String.ext
  show (stem.data ++ ['.']) ++ ['k', 'e', 'y'] = stem.data ++ ['.', 'k', 'e', 'y']
  simp

/-- Claim C1 (code bug): a `present` call whose desired profile exactly
matches the existing CA does not return the success outcome "exists in the
correct state": the expiry `2030-05-21` matches the first pattern, so line
167 references the never-imported `datetime` and `present` raises
`NameError` — with an empty backend trace (no existence check, no diff, no
mutation) and no outcome dict at all.  The "exists in the correct state"
comment initialized on lines 154-158 is unreturnable on every path. -/
theorem c1_matching_ca_crashes :
    reIso "2030-05-21" = true ∧
    present "example.com" 2048 "2030-05-21" (some "example.com") (some "US")
      (some "Utah") (some "Salt Lake City") (some "SaltStack") none
      (some "xyz@pdq.net") false none "sha256" wMatch =
      ([], .error (.nameError nameErrorMsg)) :=
  ⟨rfl, rfl⟩

/-- Claim C2 counterexample: the desired `CN=changed.com` and the actual
`CN=example.com` are both set with different values, so the claim's iff says
the diff engine records `CN` in the change-set; the code computes no
change-set at all — `_changes` raises `NameError` at line 82, before the
existence check and the subject loop, with no backend call. -/
theorem c2_counterexample :
    specFieldFlag (some "changed.com") (some "example.com") = true ∧
    _changes "example.com" 2048 "2030-05-21" (some "changed.com") (some "US")
      (some "Utah") (some "Salt Lake City") (some "SaltStack") none
      (some "xyz@pdq.net") false none "sha256" phMatch =
      ([], .error (.nameError nameErrorMsg)) :=
  ⟨rfl, rfl⟩

/-- Claim C2 (amended): no subject field is ever recorded in a change-set:
every `_changes` invocation raises before the subject comparison — the
source's own `ValueError` for an expiry matching neither pattern, `NameError`
from the missing `datetime` import otherwise — with no backend call, so no
change-set ever exists.  The comparison loop as written on lines 95-103
(dead code) would flag a field iff the truthiness differs between desired
and actual, or the actual subject carries the field (possibly with an empty
value) and the desired value differs from the actual one under Python
inequality, where `None` differs from every string. -/
theorem c2_no_field_recorded :
    (∀ (name : String) (bits : Nat) (expires : String)
       (CN C ST L O OU emailAddress : Option String) (fixmode : Bool)
       (cacert_path : Option String) (digest : String) (ph : BackendPhase),
       ∃ err, _changes name bits expires CN C ST L O OU emailAddress fixmode
         cacert_path digest ph = ([], .error err)) ∧
    (∀ d a, fieldChanged d a = amendedFieldFlag d a) := by
  constructor
  · intro name bits expires CN C ST L O OU emailAddress fixmode cacert_path
      digest ph
    unfold _changes
    cases normalizeExpires expires <;> exact ⟨_, rfl⟩
  · exact fieldChanged_eq_amended

/-- Claim C3 (code bug): the diff engine never returns the absent signal:
with a parse-shaped expiry (`2030-05-21` matches the first pattern) and a
backend without a CA, `_changes` raises `NameError` at line 82, before the
`tls.ca_exists` query on line 90 — the existence check never runs and
nothing is returned, rather than the claimed `False` after only the
existence query. -/
theorem c3_normalization_crashes :
    reIso "2030-05-21" = true ∧
    _changes "example.com" 2048 "2030-05-21" (some "example.com") (some "US")
      (some "Utah") (some "Salt Lake City") (some "SaltStack") none
      (some "xyz@pdq.net") false none "sha256" phNoCA =
      ([], .error (.nameError nameErrorMsg)) :=
  ⟨rfl, rfl⟩

/-- Claim C4 (code bug): the replace-then-verify path of lines 197-234 is
unreachable: in a non-dry-run world with a divergent CA whose backend would
report changes applied, `present` raises `NameError` at line 167 during
normalization — no diff, no `tls.create_ca`, no re-diff, no outcome. -/
theorem c4_replace_unreachable :
    reIso "2030-05-21" = true ∧
    present "example.com" 2048 "2030-05-21" (some "example.com") (some "US")
      (some "Utah") (some "Salt Lake City") (some "SaltStack") none
      (some "xyz@pdq.net") false none "sha256" wDiverge =
      ([], .error (.nameError nameErrorMsg)) :=
  ⟨rfl, rfl⟩

/-- Claim C5: in dry-run mode (`__opts__['test']` true), neither `present`
nor `absent` ever performs a mutating backend call — no `tls.create_ca` and
no `os.remove` appears in the trace — whatever state the backend reports
(absent, matching or divergent CA) and whatever the arguments. -/
theorem c5_dry_run_no_mutation (name : String) (bits : Nat) (expires : String)
    (CN C ST L O OU emailAddress : Option String) (fixmode : Bool)
    (cacert_path : Option String) (digest : String) (w : World)
    (name2 : String) (cacert_path2 : Option String) (w2 : World)
    (htest : w.test = true) (htest2 : w2.test = true) :
    noMutatingCalls (present name bits expires CN C ST L O OU emailAddress
      fixmode cacert_path digest w).1 = true ∧
    noMutatingCalls (absent name2 cacert_path2 w2).1 = true := by
  constructor
  · unfold present
    cases normalizeExpires expires <;> simp [noMutatingCalls]
  · unfold absent
    by_cases hex : w2.pre.ca_exists = true <;>
      simp [hex, htest2, noMutatingCalls, Call.mutating]

/-- Claim C5 witness: a dry run of `present` against a fully matching CA
and a dry run of `absent` against an absent CA, both with empty mutation
sets. -/
theorem c5_dry_run_no_mutation_witness :
    noMutatingCalls (present "example.com" 2048 "2030-05-21"
      (some "example.com") (some "US") (some "Utah") (some "Salt Lake City")
      (some "SaltStack") none (some "xyz@pdq.net") false none "sha256"
      { wMatch with test := true }).1 = true ∧
    noMutatingCalls (absent "gone.example.com" none wNoCATest).1 = true :=
  c5_dry_run_no_mutation "example.com" 2048 "2030-05-21" (some "example.com")
    (some "US") (some "Utah") (some "Salt Lake City") (some "SaltStack") none
    (some "xyz@pdq.net") false none "sha256" { wMatch with test := true }
    "gone.example.com" none wNoCATest rfl rfl

/-- Claim C6 counterexample: the eight-digit compact string `20300521`
(YYYYMMDD, no separators) matches neither of the source's patterns, and
`present` rejects it as an invalid expiration date instead of accepting it —
this rejection path is the one path of `present` that really runs (it
touches no `datetime` name). -/
theorem c6_counterexample :
    reIso "20300521" = false ∧ reCompact "20300521" = false ∧
    (present "ca" 2048 "20300521" (some "localhost") (some "US") (some "Utah")
        (some "Salt Lake City") (some "SaltStack") none (some "xyz@pdq.net")
        false none "sha256" wNoCA).2 =
      .ok { name := "ca", changes := [], result := some false,
            comment := "Invalid expiration date: 20300521" } :=
  ⟨rfl, rfl, rfl⟩

/-- Claim C6 (amended): the legacy pattern of the normalizer is `YYYY-MMDD`
— a hyphen after the year and none between month and day — not `YYYYMMDD`:
pure eight-digit strings match neither pattern and are rejected as invalid
expiration dates, while every `YYYY-MMDD` string (month 01-12, day 01-31 per
the pattern's character classes) matches the second pattern and escapes that
rejection; it is still not accepted as a valid expiry input, though — the
match leads straight to `datetime.strptime` on line 169, which raises
`NameError` since `datetime` is never imported. -/
theorem c6_compact_matches_but_crashes (y m d : Nat) (name : String)
    (bits : Nat) (CN C ST L O OU emailAddress : Option String)
    (fixmode : Bool) (cacert_path : Option String) (digest : String)
    (w : World) (hy : y ≤ 9999) (hm1 : 1 ≤ m) (hm2 : m ≤ 12) (hd1 : 1 ≤ d)
    (hd31 : d ≤ 31) :
    reCompact (mkCompact y m d) = true ∧
    reIso (mkCompact y m d) = false ∧
    present name bits (mkCompact y m d) CN C ST L O OU emailAddress fixmode
      cacert_path digest w = ([], .error (.nameError nameErrorMsg)) := by
  refine ⟨reCompact_mkCompact y m d hm1 hm2 hd1 hd31, reIso_mkCompact y m d, ?_⟩
  unfold present
  rw [normalizeExpires_mkCompact y m d hm1 hm2 hd1 hd31]

/-- Claim C6 (amended) witness: the concrete string 2030-0521 in a concrete
world. -/
theorem c6_compact_matches_but_crashes_witness :
    reCompact (mkCompact 2030 5 21) = true ∧
    reIso (mkCompact 2030 5 21) = false ∧
    present "ca" 2048 (mkCompact 2030 5 21) (some "localhost") (some "US")
      (some "Utah") (some "Salt Lake City") (some "SaltStack") none
      (some "xyz@pdq.net") false none "sha256" wNoCA =
      ([], .error (.nameError nameErrorMsg)) :=
  c6_compact_matches_but_crashes 2030 5 21 "ca" 2048 (some "localhost")
    (some "US") (some "Utah") (some "Salt Lake City") (some "SaltStack") none
    (some "xyz@pdq.net") false none "sha256" wNoCA (by decide) (by decide)
    (by decide) (by decide) (by decide)

/-- Claim C7 (code bug): normalization never succeeds on a valid ISO date
string: `2030-05-21` matches the first pattern, but the match leads straight
to `datetime.strptime` (lines 82 and 167), which raises `NameError` —
`datetime` is never imported, and even under `import datetime` the module
has no `strptime` attribute — so no expiry round-trips and `present` crashes
with no backend call. -/
theorem c7_iso_never_normalizes :
    reIso "2030-05-21" = true ∧
    normalizeExpires "2030-05-21" = .nameError ∧
    present "example.com" 2048 "2030-05-21" (some "example.com") (some "US")
      (some "Utah") (some "Salt Lake City") (some "SaltStack") none
      (some "xyz@pdq.net") false none "sha256" wNoCA =
      ([], .error (.nameError nameErrorMsg)) :=
  ⟨rfl, rfl, rfl⟩

/-- Claim C8 counterexample: the empty expiry string matches neither
accepted pattern, yet `present` does not return a failed outcome carrying
the offending string: line 164 evaluates `datetime.date.today()` and raises
`NameError` — no outcome dict is produced at all (in dry-run mode just the
same). -/
theorem c8_counterexample :
    reIso "" = false ∧ reCompact "" = false ∧
    present "ca" 2048 "" (some "localhost") (some "US") (some "Utah")
      (some "Salt Lake City") (some "SaltStack") none (some "xyz@pdq.net")
      false none "sha256" wNoCATest =
      ([], .error (.nameError nameErrorMsg)) :=
  ⟨rfl, rfl, rfl⟩

/-- Claim C8 (amended): for every NON-empty expiry string that matches
neither pattern — where each pattern, per Python's dollar anchor, also
matches with a single trailing newline after the date — `present` returns a
failed outcome whose comment carries the offending string, with an empty
call trace (so before any backend interaction), and the result is the same
for every world — in particular identical whether dry-run mode is on or off.
The empty string instead raises `NameError` in the default-expiry
computation. -/
theorem c8_invalid_expiry (name : String) (bits : Nat) (expires : String)
    (CN C ST L O OU emailAddress : Option String) (fixmode : Bool)
    (cacert_path : Option String) (digest : String) (w : World)
    (hne : expires ≠ "") (h1 : reIso expires = false)
    (h2 : reCompact expires = false) :
    present name bits expires CN C ST L O OU emailAddress fixmode cacert_path
      digest w =
      ([], .ok { name := name, changes := [], result := some false,
                 comment := "Invalid expiration date: " ++ expires }) := by
  unfold present normalizeExpires
  rw [if_neg hne, h1, h2]
  simp

/-- Claim C8 (amended) witness: the string `garbage` in a dry-run world and
in a non-dry-run world, yielding the identical failed outcome. -/
theorem c8_invalid_expiry_witness :
    present "ca" 2048 "garbage" (some "localhost") (some "US") (some "Utah")
        (some "Salt Lake City") (some "SaltStack") none (some "xyz@pdq.net")
        false none "sha256" wNoCATest =
      ([], .ok { name := "ca", changes := [], result := some false,
                 comment := "Invalid expiration date: garbage" }) ∧
    present "ca" 2048 "garbage" (some "localhost") (some "US") (some "Utah")
        (some "Salt Lake City") (some "SaltStack") none (some "xyz@pdq.net")
        false none "sha256" wNoCA =
      ([], .ok { name := "ca", changes := [], result := some false,
                 comment := "Invalid expiration date: garbage" }) :=
  ⟨c8_invalid_expiry "ca" 2048 "garbage" (some "localhost") (some "US")
      (some "Utah") (some "Salt Lake City") (some "SaltStack") none
      (some "xyz@pdq.net") false none "sha256" wNoCATest (by decide) rfl rfl,
   c8_invalid_expiry "ca" 2048 "garbage" (some "localhost") (some "US")
      (some "Utah") (some "Salt Lake City") (some "SaltStack") none
      (some "xyz@pdq.net") false none "sha256" wNoCA (by decide) rfl rfl⟩

/-- Claim C9: non-dry-run `absent` with an existing CA removes the
certificate file first and then the co-located private-key file — the
certificate path with its three-character extension `crt` replaced by `key`
— and returns success with `changes = {name: removed}` and a comment naming
both removed artifacts. -/
theorem c9_absent_removes (name : String) (cacert_path : Option String)
    (w : World) (stem : String)
    (htest : w.test = false) (hex : w.pre.ca_exists = true)
    (hpath : w.pre.get_ca = stem ++ ".crt") :
    absent name cacert_path w =
      ([Call.ca_exists name, Call.get_ca name,
        Call.os_remove (stem ++ ".crt"), Call.os_remove (stem ++ ".key")],
       { name := name, changes := [(name, some "removed")], result := some true,
         comment := "Removed CA Certificate \"" ++ name ++ "\"" ++
                    " Removed CA private key \"" ++ name ++ "\"" }) := by
  unfold absent
  simp [hex, htest, hpath, pySliceDropLast3_crt]

/-- Claim C9 witness: removal of the CA `example.com`, whose certificate
lives at `/etc/pki/example.com_ca_cert.crt`. -/
theorem c9_absent_removes_witness :
    absent "example.com" none wMatch =
      ([Call.ca_exists "example.com", Call.get_ca "example.com",
        Call.os_remove ("/etc/pki/example.com_ca_cert" ++ ".crt"),
        Call.os_remove ("/etc/pki/example.com_ca_cert" ++ ".key")],
       { name := "example.com", changes := [("example.com", some "removed")],
         result := some true,
         comment := "Removed CA Certificate \"" ++ "example.com" ++ "\"" ++
                    " Removed CA private key \"" ++ "example.com" ++ "\"" }) :=
  c9_absent_removes "example.com" none wMatch "/etc/pki/example.com_ca_cert"
    rfl rfl rfl

/-- Claim C10 (code bug): the expiry flagging on lines 104-105 is dead code:
the claim's premise — the expiry input parses successfully — is never
realizable, since `_changes` raises `NameError` at lines 80/82/84 for every
empty or pattern-matching expiry (here `2030-05-21` against an existing CA),
so no change dict is ever computed and `expires` is never flagged.  The
comparison as written would indeed never find the two sides equal —
Python `==` between a `datetime.date` and a `str` is always false — but it
is unreachable. -/
theorem c10_expires_flag_dead :
    pyEq (.date ⟨2030, 5, 21⟩) (.str "2030-05-21") = false ∧
    _changes "example.com" 2048 "2030-05-21" (some "example.com") (some "US")
      (some "Utah") (some "Salt Lake City") (some "SaltStack") none
      (some "xyz@pdq.net") false none "sha256" phMatch =
      ([], .error (.nameError nameErrorMsg)) :=
  ⟨rfl, rfl⟩

end TlsCa
